import Mathlib

/-
Verification of the PSQLConnector module (src/PSQL_connector.py): a thin
wrapper class around a PostgreSQL driver and a tabular-data library.

Shallow embedding: the Python object `self` becomes an explicit record
`PSQLConnector`; the external driver's behaviour (success/failure of
psycopg2.connect, of the schema-setting cursor.execute, and of
pd.read_sql) is supplied as an explicit `Driver` / query-result argument;
Python exceptions become an `Option PyErr` component of each method's
result; lines printed to stdout become a `List String` log component.
`PyErr` models Python `Exception` subclasses: `operationalError` is
psycopg2.OperationalError (the one class `connect` catches), `otherError`
is any other Exception.
-/

set_option autoImplicit false
set_option linter.unusedVariables false

/-- A Python exception value, as far as this module can observe it:
either a psycopg2.OperationalError or any other Exception, each carrying
its string rendering (what an f-string interpolation of it produces). -/
inductive PyErr where
  | operationalError (msg : String) : PyErr
  | otherError (msg : String) : PyErr
deriving DecidableEq, Repr

/-- The string an f-string interpolation of the exception produces. -/
def PyErr.message : PyErr → String
  | .operationalError m => m
  | .otherError m => m

/-- A live psycopg2 connection object as this module observes it: its
`closed` flag and the list of statements executed directly on it via a
cursor (only the SET search_path statement in this module). -/
structure Conn where
  closed : Bool
  statements : List String
deriving DecidableEq, Repr

/-- The state of a PSQLConnector instance: the six constructor-stored
parameters plus the `connection` attribute (None or a connection). -/
structure PSQLConnector where
  host : String
  port : Int
  db_name : String
  username : String
  password : String
  schema : Option String
  connection : Option Conn
deriving DecidableEq, Repr

/-- `PSQLConnector.__init__`: stores the six parameters verbatim and sets
`self.connection = None`. It takes no driver argument and produces no log:
no I/O happens at construction. -/
def PSQLConnector.init (host : String) (port : Int) (db_name : String)
    (username : String) (password : String) (schema : Option String) : PSQLConnector :=
  { host := host, port := port, db_name := db_name, username := username,
    password := password, schema := schema, connection := none }

/-- The behaviour of the external driver during one `connect()` call:
the outcome of `psycopg2.connect(...)` and the outcome of
`cursor.execute("SET search_path TO ...")` (consulted only when the
schema branch runs). -/
structure Driver where
  connectResult : Except PyErr Unit
  setSchemaResult : Except PyErr Unit
deriving Repr

/-- Result of a `connect()` call: the updated object state, the exception
propagated to the caller (none on success), and the printed lines. -/
structure ConnectOutcome where
  state : PSQLConnector
  raised : Option PyErr
  log : List String
deriving DecidableEq, Repr

/-- `PSQLConnector.connect`: runs `psycopg2.connect`; on success assigns
the new open connection to `self.connection`, then, if `self.schema` is
truthy (not None and not the empty string), executes
`SET search_path TO <schema>` on it; prints a success line. The
`try/except OperationalError` logs and re-raises OperationalError; any
other exception propagates without being logged. An exception from the
schema statement leaves the already-assigned open connection in place. -/
def PSQLConnector.connect (self : PSQLConnector) (d : Driver) : ConnectOutcome :=
  match d.connectResult with
  | .error (.operationalError m) =>
      ⟨self, some (.operationalError m),
        ["Error connecting to PostgreSQL database: " ++ m]⟩
  | .error (.otherError m) =>
      ⟨self, some (.otherError m), []⟩
  | .ok _ =>
    let opened : Conn := ⟨false, []⟩
    match self.schema with
    | some sch =>
      if sch == "" then
        ⟨{ self with connection := some opened }, none,
          ["Successfully connected to PostgreSQL database"]⟩
      else
        match d.setSchemaResult with
        | .error (.operationalError m) =>
            ⟨{ self with connection := some opened }, some (.operationalError m),
              ["Error connecting to PostgreSQL database: " ++ m]⟩
        | .error (.otherError m) =>
            ⟨{ self with connection := some opened }, some (.otherError m), []⟩
        | .ok _ =>
            ⟨{ self with connection := some ⟨false, ["SET search_path TO " ++ sch]⟩ },
              none, ["Successfully connected to PostgreSQL database"]⟩
    | none =>
        ⟨{ self with connection := some opened }, none,
          ["Successfully connected to PostgreSQL database"]⟩

/-- `PSQLConnector.disconnect`: if `self.connection` is truthy (not None)
and not already closed, closes it and prints a confirmation; otherwise
does nothing. It contains no failing operation, so it returns no
exception component: it is total. -/
def PSQLConnector.disconnect (self : PSQLConnector) : PSQLConnector × List String :=
  match self.connection with
  | some c =>
      if c.closed then (self, [])
      else ({ self with connection := some { c with closed := true } },
            ["PostgreSQL connection closed"])
  | none => (self, [])

/-- A pandas DataFrame as this module observes it: named columns and rows
of cell values. `pd.DataFrame()` is the empty one. -/
structure DataFrame where
  columns : List String
  rows : List (List String)
deriving DecidableEq, Repr

/-- `pd.DataFrame()`: no rows, no columns. -/
def DataFrame.empty : DataFrame := ⟨[], []⟩

/-- Result of a query method: the returned DataFrame, the exception
propagated to the caller (always none for the executor), and the printed
lines. The object state is untouched: no query method assigns any
attribute of `self`. -/
structure QueryOutcome where
  result : DataFrame
  raised : Option PyErr
  log : List String
deriving DecidableEq, Repr

/-- `PSQLConnector._execute_query`: runs `pd.read_sql(query,
self.connection)`, whose outcome is the argument `r`; `except Exception`
catches every error, prints it, and returns `pd.DataFrame()`. -/
def PSQLConnector._execute_query (self : PSQLConnector) (query : String)
    (r : Except PyErr DataFrame) : QueryOutcome :=
  match r with
  | .ok df => ⟨df, none, []⟩
  | .error e => ⟨DataFrame.empty, none, ["Error executing query: " ++ e.message]⟩

/-- The hard-coded statement of `get_all_dishes`. -/
def get_all_dishes_query : String := "SELECT * FROM restaurant.dish"

/-- The hard-coded statement of `get_distinct_dishes` (note the lowercase
`distinct` in the source). -/
def get_distinct_dishes_query : String :=
  "SELECT distinct dish_name, id, category_id FROM restaurant.dish"

/-- The hard-coded statement of `get_all_dish_categories`. -/
def get_all_dish_categories_query : String := "SELECT * FROM restaurant.dish_category"

/-- `PSQLConnector.get_all_dishes`. -/
def PSQLConnector.get_all_dishes (self : PSQLConnector)
    (r : Except PyErr DataFrame) : QueryOutcome :=
  self._execute_query get_all_dishes_query r

/-- `PSQLConnector.get_distinct_dishes`. -/
def PSQLConnector.get_distinct_dishes (self : PSQLConnector)
    (r : Except PyErr DataFrame) : QueryOutcome :=
  self._execute_query get_distinct_dishes_query r

/-- `PSQLConnector.get_all_dish_categories`. -/
def PSQLConnector.get_all_dish_categories (self : PSQLConnector)
    (r : Except PyErr DataFrame) : QueryOutcome :=
  self._execute_query get_all_dish_categories_query r

/-- `PSQLConnector.execute_query`: the public pass-through. -/
def PSQLConnector.execute_query (self : PSQLConnector) (query : String)
    (r : Except PyErr DataFrame) : QueryOutcome :=
  self._execute_query query r

/-- The default value of the `first_n_rows` parameter of
`get_all_iiko_receipt_items`. -/
def first_n_rows_default : Int := 1000

/-- The clamp in `get_all_iiko_receipt_items`: values above 50000 are
replaced by 50000; no lower bound is applied. -/
def iiko_limit (first_n_rows : Int) : Int :=
  if first_n_rows > 50000 then 50000 else first_n_rows

/-- The fixed text preceding the interpolated limit in the receipt-items
f-string. -/
def iiko_query_prefix : String :=
  "SELECT * FROM iikoconnector.iiko_receiptitems ORDER BY \"ItemSaleEvent_Id\" ASC LIMIT "

/-- The full statement issued by `get_all_iiko_receipt_items` for a given
`first_n_rows` argument (after the clamp, interpolated by `str`). -/
def get_all_iiko_receipt_items_query (first_n_rows : Int) : String :=
  iiko_query_prefix ++ toString (iiko_limit first_n_rows)

/-- `PSQLConnector.get_all_iiko_receipt_items`. -/
def PSQLConnector.get_all_iiko_receipt_items (self : PSQLConnector)
    (first_n_rows : Int) (r : Except PyErr DataFrame) : QueryOutcome :=
  self._execute_query (get_all_iiko_receipt_items_query first_n_rows) r

/-- `PSQLConnector.__enter__`: calls `self.connect()` and returns `self`
(the post-connect state is the returned wrapper). -/
def PSQLConnector.enterCtx (self : PSQLConnector) (d : Driver) : ConnectOutcome :=
  self.connect d

/-- `PSQLConnector.__exit__`: ignores the exception-info arguments and
calls `self.disconnect()`; returns None, so a body exception is never
suppressed. -/
def PSQLConnector.exitCtx (self : PSQLConnector) (excInfo : Option PyErr) :
    PSQLConnector × List String :=
  self.disconnect

/-- Python `with`-statement semantics over the two methods above: run
`__enter__`; if it raises, propagate without running `__exit__`;
otherwise run the body, then run `__exit__` on every path (normal or
raising body) and propagate the body's exception. -/
def withBlock (s : PSQLConnector) (d : Driver)
    (body : PSQLConnector → PSQLConnector × Option PyErr) :
    PSQLConnector × Option PyErr :=
  let eo := s.enterCtx d
  match eo.raised with
  | some e => (eo.state, some e)
  | none =>
    let be := body eo.state
    let xe := be.fst.exitCtx be.snd
    (xe.fst, be.snd)

/-- Whether the stored handle refers to an open connection. -/
def hasOpenSession (s : PSQLConnector) : Bool :=
  match s.connection with
  | some c => ! c.closed
  | none => false

/-- One observable operation on a wrapper instance, for the reachability
analysis: a connect (with given driver behaviour), a disconnect, or any
query call (with given read result). -/
inductive Op where
  | connectOp (d : Driver) : Op
  | disconnectOp : Op
  | queryOp (query : String) (r : Except PyErr DataFrame) : Op
deriving Repr

/-- State transition of one operation. A query call returns a DataFrame
but assigns no attribute of `self`, so it leaves the state unchanged. -/
def step (s : PSQLConnector) (op : Op) : PSQLConnector :=
  match op with
  | .connectOp d => (s.connect d).state
  | .disconnectOp => s.disconnect.fst
  | .queryOp _ _ => s

/-- Run a sequence of operations from a state. -/
def run (s : PSQLConnector) (ops : List Op) : PSQLConnector :=
  ops.foldl step s

/-- Helper: a state produced by `disconnect` never holds an open session:
the handle is either still absent or now closed. -/
lemma hasOpenSession_disconnect (s : PSQLConnector) :
    hasOpenSession s.disconnect.fst = false := by
  obtain ⟨h, p, db, u, pw, sch, conn⟩ := s
  cases conn with
  | none => rfl
  | some c =>
    obtain ⟨cl, st⟩ := c
    cases cl <;> rfl

/-- Helper: `disconnect` applied to the result of a `disconnect` is a
no-op with no output. -/
lemma disconnect_disconnect (s : PSQLConnector) :
    s.disconnect.fst.disconnect = (s.disconnect.fst, []) := by
  obtain ⟨h, p, db, u, pw, sch, conn⟩ := s
  cases conn with
  | none => rfl
  | some c =>
    obtain ⟨cl, st⟩ := c
    cases cl <;> rfl

/-- Claim C1: any error raised while executing a query is caught by the
internal executor, which logs it and returns the empty DataFrame (zero
rows, zero columns); neither the internal executor nor the public
pass-through `execute_query` ever propagates a query-time exception. -/
theorem query_errors_swallowed (s : PSQLConnector) (q : String) (e : PyErr)
    (r : Except PyErr DataFrame) :
    s._execute_query q (Except.error e) =
      ⟨DataFrame.empty, none, ["Error executing query: " ++ e.message]⟩ ∧
    s.execute_query q r = s._execute_query q r ∧
    (s._execute_query q r).raised = none ∧
    DataFrame.empty.rows = [] ∧ DataFrame.empty.columns = [] := by
  refine ⟨rfl, rfl, ?_, rfl, rfl⟩
  cases r <;> rfl

/-- Claim C3: the receipt-items query interpolates the requested row cap
unchanged when it is at most 50000, and clamps it to 50000 above that. -/
theorem iiko_limit_clamp (n : Int) :
    (n ≤ 50000 →
      get_all_iiko_receipt_items_query n = iiko_query_prefix ++ toString n) ∧
    (50000 < n →
      get_all_iiko_receipt_items_query n = iiko_query_prefix ++ "50000") := by
  unfold get_all_iiko_receipt_items_query iiko_limit
  constructor
  · intro h
    rw [if_neg (by omega)]
  · intro h
    rw [if_pos (by omega)]
    decide

/-- Claim C3 witness: requesting 100000 rows issues LIMIT 50000 and
requesting 10 rows issues LIMIT 10. -/
theorem iiko_limit_clamp_witness :
    get_all_iiko_receipt_items_query 100000 =
      "SELECT * FROM iikoconnector.iiko_receiptitems ORDER BY \"ItemSaleEvent_Id\" ASC LIMIT 50000" ∧
    get_all_iiko_receipt_items_query 10 =
      "SELECT * FROM iikoconnector.iiko_receiptitems ORDER BY \"ItemSaleEvent_Id\" ASC LIMIT 10" := by
  have h1 := (iiko_limit_clamp 100000).2 (by decide)
  have h2 := (iiko_limit_clamp 10).1 (by decide)
  exact ⟨h1.trans (by decide), h2.trans (by decide)⟩

/-- Claim C5: `disconnect` is total (its embedding returns no exception
component because the method contains no failing operation), a call on a
never-connected wrapper is a no-op, a second consecutive call is a no-op
leaving the state unchanged and printing nothing, and iterating it any
positive number of times equals calling it once. -/
theorem disconnect_idempotent (s : PSQLConnector) :
    (s.disconnect.fst.disconnect = (s.disconnect.fst, [])) ∧
    (s.connection = none → s.disconnect = (s, [])) ∧
    (∀ n : Nat,
      (fun t : PSQLConnector => t.disconnect.fst)^[n + 1] s = s.disconnect.fst) := by
  refine ⟨disconnect_disconnect s, ?_, ?_⟩
  · intro h
    unfold PSQLConnector.disconnect
    rw [h]
  · intro n
    induction n with
    | zero => rfl
    | succ k ih =>
      rw [Function.iterate_succ_apply', ih]
      show s.disconnect.fst.disconnect.fst = s.disconnect.fst
      rw [disconnect_disconnect]

/-- Claim C5 witness: on a freshly constructed wrapper, `disconnect` is a
no-op, and two consecutive calls leave the state where one call does. -/
theorem disconnect_idempotent_witness :
    (PSQLConnector.init "h" 5432 "db" "u" "pw" none).disconnect =
      (PSQLConnector.init "h" 5432 "db" "u" "pw" none, []) ∧
    (fun t : PSQLConnector => t.disconnect.fst)^[2]
        (PSQLConnector.init "h" 5432 "db" "u" "pw" none) =
      (PSQLConnector.init "h" 5432 "db" "u" "pw" none).disconnect.fst := by
  have h := disconnect_idempotent (PSQLConnector.init "h" 5432 "db" "u" "pw" none)
  exact ⟨h.2.1 rfl, h.2.2 1⟩

/-- Claim C8: construction stores the six supplied parameters verbatim
and leaves the session handle absent; `PSQLConnector.init` takes no
driver argument and produces no log, so no connection attempt or other
I/O can occur at construction. -/
theorem construction_stores_verbatim (h : String) (p : Int) (db u pw : String)
    (sch : Option String) :
    (PSQLConnector.init h p db u pw sch).host = h ∧
    (PSQLConnector.init h p db u pw sch).port = p ∧
    (PSQLConnector.init h p db u pw sch).db_name = db ∧
    (PSQLConnector.init h p db u pw sch).username = u ∧
    (PSQLConnector.init h p db u pw sch).password = pw ∧
    (PSQLConnector.init h p db u pw sch).schema = sch ∧
    (PSQLConnector.init h p db u pw sch).connection = none :=
  ⟨rfl, rfl, rfl, rfl, rfl, rfl, rfl⟩

/-- Claim C9 counterexample: the statement actually passed by
`get_distinct_dishes` is not the uppercase-DISTINCT string the claim
specifies (the source spells the keyword in lowercase). -/
theorem distinct_query_case_differs :
    get_distinct_dishes_query ≠
      "SELECT DISTINCT dish_name, id, category_id FROM restaurant.dish" := by
  decide

/-- Claim C9 (amended): each fixed query method passes exactly its
hard-coded statement to the internal executor, where the distinct-dishes
statement spells the keyword lowercase:
`SELECT distinct dish_name, id, category_id FROM restaurant.dish`. -/
theorem fixed_query_strings (s : PSQLConnector) (r : Except PyErr DataFrame) :
    get_all_dishes_query = "SELECT * FROM restaurant.dish" ∧
    get_distinct_dishes_query =
      "SELECT distinct dish_name, id, category_id FROM restaurant.dish" ∧
    get_all_dish_categories_query = "SELECT * FROM restaurant.dish_category" ∧
    s.get_all_dishes r = s._execute_query get_all_dishes_query r ∧
    s.get_distinct_dishes r = s._execute_query get_distinct_dishes_query r ∧
    s.get_all_dish_categories r = s._execute_query get_all_dish_categories_query r :=
  ⟨rfl, rfl, rfl, rfl, rfl, rfl⟩

/-- Claim C10: the receipt-items method has default row cap 1000, and for
every argument at most 50000 — zero and negative values included — the
value is interpolated unchanged into the LIMIT clause. -/
theorem iiko_no_lower_bound (n : Int) :
    first_n_rows_default = 1000 ∧
    get_all_iiko_receipt_items_query first_n_rows_default =
      iiko_query_prefix ++ "1000" ∧
    (n ≤ 50000 →
      get_all_iiko_receipt_items_query n = iiko_query_prefix ++ toString n) := by
  refine ⟨rfl, by decide, ?_⟩
  intro h
  unfold get_all_iiko_receipt_items_query iiko_limit
  rw [if_neg (by omega)]

/-- Claim C2 counterexample: with a configured schema, when
psycopg2.connect succeeds but the schema-setting statement raises a
non-OperationalError (for instance a syntax error in the interpolated
schema name), connect re-raises it but prints nothing, and the wrapper is
left holding the already-opened, still-open connection. -/
theorem connect_schema_failure_leaks_open_session :
    ((PSQLConnector.init "db.example.com" 5432 "mydb" "user" "pw"
        (some "restaurant")).connect
      ⟨Except.ok (), Except.error (PyErr.otherError "syntax error")⟩).raised =
        some (PyErr.otherError "syntax error") ∧
    ((PSQLConnector.init "db.example.com" 5432 "mydb" "user" "pw"
        (some "restaurant")).connect
      ⟨Except.ok (), Except.error (PyErr.otherError "syntax error")⟩).log = [] ∧
    hasOpenSession ((PSQLConnector.init "db.example.com" 5432 "mydb" "user" "pw"
        (some "restaurant")).connect
      ⟨Except.ok (), Except.error (PyErr.otherError "syntax error")⟩).state = true := by
  decide

/-- Claim C2 (amended): every failure of connect() re-raises the
exception; an OperationalError is logged before the re-raise while any
other exception propagates unlogged; when psycopg2.connect itself fails
the wrapper state is unchanged (so a previously absent session stays
absent), but when the schema-setting statement fails the newly opened
connection remains stored and open. -/
theorem connect_failure_behavior (s : PSQLConnector) (d : Driver) :
    (∀ m, d.connectResult = Except.error (PyErr.operationalError m) →
      s.connect d = ⟨s, some (PyErr.operationalError m),
        ["Error connecting to PostgreSQL database: " ++ m]⟩) ∧
    (∀ m, d.connectResult = Except.error (PyErr.otherError m) →
      s.connect d = ⟨s, some (PyErr.otherError m), []⟩) ∧
    (∀ sch e, s.schema = some sch → (sch == "") = false →
      d.connectResult = Except.ok () → d.setSchemaResult = Except.error e →
      (s.connect d).raised = some e ∧
      (s.connect d).state.connection = some ⟨false, []⟩) := by
  refine ⟨?_, ?_, ?_⟩
  · intro m hm
    unfold PSQLConnector.connect
    rw [hm]
  · intro m hm
    unfold PSQLConnector.connect
    rw [hm]
  · intro sch e hsch hne hc hs
    cases e <;> simp [PSQLConnector.connect, hc, hsch, hne, hs]

/-- Claim C2 witness: an OperationalError raised by the schema statement
is re-raised while the opened connection stays stored. -/
theorem connect_failure_behavior_witness :
    (((PSQLConnector.init "h" 5432 "db" "u" "pw" (some "restaurant")).connect
        ⟨Except.ok (),
          Except.error (PyErr.operationalError "server closed the connection")⟩).raised =
      some (PyErr.operationalError "server closed the connection")) ∧
    (((PSQLConnector.init "h" 5432 "db" "u" "pw" (some "restaurant")).connect
        ⟨Except.ok (),
          Except.error (PyErr.operationalError "server closed the connection")⟩).state.connection =
      some ⟨false, []⟩) :=
  (connect_failure_behavior
      (PSQLConnector.init "h" 5432 "db" "u" "pw" (some "restaurant"))
      ⟨Except.ok (),
        Except.error (PyErr.operationalError "server closed the connection")⟩).2.2
    "restaurant" (PyErr.operationalError "server closed the connection")
    rfl (by decide) rfl rfl

/-- Claim C4: entering the scoped session is exactly a connect() whose
post-state is the returned wrapper; exiting calls disconnect() whatever
the exception info is; and whenever entry succeeds, the block ends by
disconnecting the body's final state on every exit path — the body's
exception, if any, still propagates — so no open session survives the
block. -/
theorem context_manager_releases (s : PSQLConnector) (d : Driver)
    (body : PSQLConnector → PSQLConnector × Option PyErr) :
    (s.enterCtx d = s.connect d) ∧
    (∀ (t : PSQLConnector) (e : Option PyErr), t.exitCtx e = t.disconnect) ∧
    ((s.enterCtx d).raised = none →
      withBlock s d body =
        ((body (s.enterCtx d).state).fst.disconnect.fst,
          (body (s.enterCtx d).state).snd) ∧
      hasOpenSession (withBlock s d body).fst = false) := by
  refine ⟨rfl, fun t e => rfl, ?_⟩
  intro hok
  have hw : withBlock s d body =
      ((body (s.enterCtx d).state).fst.disconnect.fst,
        (body (s.enterCtx d).state).snd) := by
    simp only [withBlock, PSQLConnector.exitCtx, hok]
  refine ⟨hw, ?_⟩
  rw [hw]
  exact hasOpenSession_disconnect _

/-- Claim C4 witness: with a body that raises, the block still ends with
no open session and the body's exception propagates. -/
theorem context_manager_releases_witness :
    hasOpenSession (withBlock (PSQLConnector.init "h" 5432 "db" "u" "pw" none)
        ⟨Except.ok (), Except.ok ()⟩
        (fun t => (t, some (PyErr.otherError "boom")))).fst = false ∧
    (withBlock (PSQLConnector.init "h" 5432 "db" "u" "pw" none)
        ⟨Except.ok (), Except.ok ()⟩
        (fun t => (t, some (PyErr.otherError "boom")))).snd =
      some (PyErr.otherError "boom") := by
  have h := (context_manager_releases (PSQLConnector.init "h" 5432 "db" "u" "pw" none)
      ⟨Except.ok (), Except.ok ()⟩
      (fun t => (t, some (PyErr.otherError "boom")))).2.2 (by decide)
  exact ⟨h.2, by rw [h.1]⟩

/-- Helper: an open session in the state reached by a sequence of
operations is already open at the start or was produced by a connect
operation in the sequence. -/
lemma open_session_from_connect (ops : List Op) :
    ∀ s : PSQLConnector, hasOpenSession (run s ops) = true →
      hasOpenSession s = true ∨ ∃ d, Op.connectOp d ∈ ops := by
  induction ops with
  | nil => exact fun s hs => Or.inl hs
  | cons op rest ih =>
    intro s hs
    have hstep : hasOpenSession (run (step s op) rest) = true := by
      simpa [run] using hs
    rcases ih (step s op) hstep with hopen | ⟨d, hd⟩
    · cases op with
      | connectOp d => exact Or.inr ⟨d, List.mem_cons_self _ _⟩
      | disconnectOp =>
        rw [show step s Op.disconnectOp = s.disconnect.fst from rfl,
          hasOpenSession_disconnect] at hopen
        exact (Bool.false_ne_true hopen).elim
      | queryOp q r => exact Or.inl hopen
    · exact Or.inr ⟨d, List.mem_cons_of_mem _ hd⟩

/-- Claim C6 counterexample: after construct, connect, disconnect, the
stored session handle is neither absent nor an open connection — it still
holds the now-closed connection object, because disconnect closes the
connection but never assigns None to the attribute. -/
theorem disconnected_handle_not_absent :
    (run (PSQLConnector.init "h" 5432 "db" "u" "pw" none)
        [Op.connectOp ⟨Except.ok (), Except.ok ()⟩, Op.disconnectOp]).connection =
      some ⟨true, []⟩ ∧
    ¬ ((run (PSQLConnector.init "h" 5432 "db" "u" "pw" none)
        [Op.connectOp ⟨Except.ok (), Except.ok ()⟩, Op.disconnectOp]).connection = none ∨
      hasOpenSession (run (PSQLConnector.init "h" 5432 "db" "u" "pw" none)
        [Op.connectOp ⟨Except.ok (), Except.ok ()⟩, Op.disconnectOp]) = true) := by
  decide

/-- Claim C6 (amended): the handle is absent at construction, query
operations never change the state (no reconnection-on-demand), no open
session exists immediately after a disconnect, and an open session in any
reachable state can only originate from a connect operation; after a
disconnect, however, the handle remains stored as a closed connection
object rather than becoming absent. -/
theorem session_lifecycle_invariant (h : String) (p : Int) (db u pw : String)
    (sch : Option String) (ops : List Op) :
    (PSQLConnector.init h p db u pw sch).connection = none ∧
    (∀ (s : PSQLConnector) (q : String) (r : Except PyErr DataFrame),
      step s (Op.queryOp q r) = s) ∧
    (∀ s : PSQLConnector, hasOpenSession s.disconnect.fst = false) ∧
    (hasOpenSession (run (PSQLConnector.init h p db u pw sch) ops) = true →
      ∃ d, Op.connectOp d ∈ ops) := by
  refine ⟨rfl, fun s q r => rfl, hasOpenSession_disconnect, ?_⟩
  intro hopen
  rcases open_session_from_connect ops _ hopen with hfalse | hex
  · exact (Bool.false_ne_true hfalse).elim
  · exact hex

/-- Claim C6 witness: a state with an open session, reached by a single
connect, indeed contains a connect in its history. -/
theorem session_lifecycle_invariant_witness :
    ∃ d, Op.connectOp d ∈ [Op.connectOp ⟨Except.ok (), Except.ok ()⟩] :=
  (session_lifecycle_invariant "h" 5432 "db" "u" "pw" none
      [Op.connectOp ⟨Except.ok (), Except.ok ()⟩]).2.2.2 (by decide)

/-- Claim C7 counterexample: with the schema configured as the empty
string (not None), connect succeeds but issues no SET search_path
statement on the new connection, because the source guards the statement
with Python truthiness, which is false for the empty string. -/
theorem empty_schema_skips_search_path :
    (PSQLConnector.init "h" 5432 "db" "u" "pw" (some "")).schema ≠ none ∧
    ((PSQLConnector.init "h" 5432 "db" "u" "pw" (some "")).connect
        ⟨Except.ok (), Except.ok ()⟩).raised = none ∧
    ((PSQLConnector.init "h" 5432 "db" "u" "pw" (some "")).connect
        ⟨Except.ok (), Except.ok ()⟩).state.connection = some ⟨false, []⟩ := by
  decide

/-- Claim C7 (amended): if the configured schema is non-empty, every
successful connect() leaves the new connection holding exactly the
SET search_path TO statement for it, issued before connect returns; if
no schema is configured, or the configured schema is the empty string,
the new connection holds no statement. -/
theorem schema_set_on_connect (s : PSQLConnector) (d : Driver) :
    (∀ sch, s.schema = some sch → (sch == "") = false →
      (s.connect d).raised = none →
      (s.connect d).state.connection =
        some ⟨false, ["SET search_path TO " ++ sch]⟩) ∧
    (s.schema = none → (s.connect d).raised = none →
      (s.connect d).state.connection = some ⟨false, []⟩) ∧
    (s.schema = some "" → (s.connect d).raised = none →
      (s.connect d).state.connection = some ⟨false, []⟩) := by
  refine ⟨?_, ?_, ?_⟩
  · intro sch hsch hne hok
    cases hd : d.connectResult with
    | error e =>
      cases e <;> simp [PSQLConnector.connect, hd] at hok
    | ok u =>
      cases hs : d.setSchemaResult with
      | error e =>
        cases e <;> simp [PSQLConnector.connect, hd, hsch, hne, hs] at hok
      | ok v =>
        simp [PSQLConnector.connect, hd, hsch, hne, hs]
  · intro hnone hok
    cases hd : d.connectResult with
    | error e =>
      cases e <;> simp [PSQLConnector.connect, hd] at hok
    | ok u =>
      simp [PSQLConnector.connect, hd, hnone]
  · intro hsch hok
    cases hd : d.connectResult with
    | error e =>
      cases e <;> simp [PSQLConnector.connect, hd] at hok
    | ok u =>
      simp [PSQLConnector.connect, hd, hsch]

/-- Claim C7 witness: connecting with schema "analytics" records exactly
the statement SET search_path TO analytics on the new connection. -/
theorem schema_set_on_connect_witness :
    ((PSQLConnector.init "h" 5432 "db" "u" "pw" (some "analytics")).connect
        ⟨Except.ok (), Except.ok ()⟩).state.connection =
      some ⟨false, ["SET search_path TO analytics"]⟩ :=
  (schema_set_on_connect
      (PSQLConnector.init "h" 5432 "db" "u" "pw" (some "analytics"))
      ⟨Except.ok (), Except.ok ()⟩).1 "analytics" rfl (by decide) (by decide)

/-- Claim C10 witness: the arguments 0 and -25 are passed through to the
LIMIT clause unchanged. -/
theorem iiko_no_lower_bound_witness :
    get_all_iiko_receipt_items_query 0 =
      "SELECT * FROM iikoconnector.iiko_receiptitems ORDER BY \"ItemSaleEvent_Id\" ASC LIMIT 0" ∧
    get_all_iiko_receipt_items_query (-25) =
      "SELECT * FROM iikoconnector.iiko_receiptitems ORDER BY \"ItemSaleEvent_Id\" ASC LIMIT -25" := by
  have h0 := (iiko_no_lower_bound 0).2.2 (by decide)
  have h1 := (iiko_no_lower_bound (-25)).2.2 (by decide)
  exact ⟨h0.trans (by decide), h1.trans (by decide)⟩
